import Mathlib

/-!
Verification of the core coordination layer of `py-xiaomi-walkingpad`:
the event bus (`app/event_bus.py`), the async service / gateway
(`service.py`) and the device adapter (`infra/miio_adapter.py`), shallowly
embedded in Lean.  Wall-clock quantities (timestamps, measured
milliseconds) are not modelled; the `success` flag and the `operation`
tag of each event are.  Blocking device calls are passed in as their
outcome (`Except PyErr α`), which the Python code observes only by the
value returned or the exception raised.
-/

namespace WalkingPad

/-- `PadMode` from `domain/models.py`. -/
inductive PadMode
  | AUTO
  | MANUAL
  | OFF
deriving DecidableEq

/-- `PadSensitivity` from `domain/models.py`. -/
inductive PadSensitivity
  | HIGH
  | MEDIUM
  | LOW
deriving DecidableEq

/-- `PadStatus` from `domain/models.py`: every field independently optional.
`walking_time` is kept as whole seconds. -/
structure PadStatus where
  is_on : Option Bool
  power : Option String
  mode : Option PadMode
  speed_kmh : Option ℚ
  start_speed_kmh : Option ℚ
  sensitivity : Option PadSensitivity
  step_count : Option Int
  distance_m : Option Int
  calories : Option Int
  walking_time : Option Int
deriving DecidableEq

/-- `CommandResult` from `domain/models.py`. -/
structure CommandResult where
  command : String
  success : Bool
  message : String
deriving DecidableEq

/-- The exceptions that flow through the layer: the repository's own
taxonomy from `domain/errors.py` (`CommandValidationError`,
`DeviceCommunicationError`) plus the library exceptions the adapter
catches (`WalkingpadException`, `DeviceException`, `KeyError`) and an
arbitrary other `Exception`.  Each carries its `str()` message. -/
inductive PyErr
  | walkingpadExc (msg : String)
  | deviceExc (msg : String)
  | keyError (msg : String)
  | commandValidation (msg : String)
  | deviceCommunication (msg : String)
  | otherExc (msg : String)
deriving DecidableEq

/-- `str(exc)`: the message carried by the exception. -/
def PyErr.msg : PyErr → String
  | .walkingpadExc m => m
  | .deviceExc m => m
  | .keyError m => m
  | .commandValidation m => m
  | .deviceCommunication m => m
  | .otherExc m => m

/-- The domain events of `types/events.py`, without the wall-clock
timestamp and millisecond fields (real time is not modelled); the
`operation` tag and the `success` flag of `OperationTimingEvent` are kept. -/
inductive Event
  | statusUpdated (status : PadStatus) (quick : Bool)
  | commandExecuted (result : CommandResult)
  | operationTiming (operation : String) (success : Bool)
  | errorEvent (operation : String) (message : String)
deriving DecidableEq

/-- Recognises `OperationTimingEvent`s. -/
def Event.isTiming : Event → Bool
  | .operationTiming _ _ => true
  | _ => false

/-- Recognises `CommandExecutedEvent`s. -/
def Event.isCommandExecuted : Event → Bool
  | .commandExecuted _ => true
  | _ => false

/-- Recognises `StatusUpdatedEvent`s. -/
def Event.isStatusUpdated : Event → Bool
  | .statusUpdated _ _ => true
  | _ => false

/-- Recognises `ErrorEvent`s with the given operation tag. -/
def Event.isErrorFor (operation : String) : Event → Bool
  | .errorEvent op _ => op == operation
  | _ => false

/-- The mutable state of `AsyncWalkingPadService`: the cached latest
status (`self._latest_status`), initialised to `None` in `__init__`. -/
structure ServiceState where
  latest_status : Option PadStatus
deriving DecidableEq

/-- `AsyncWalkingPadService.__init__`: `self._latest_status = None`. -/
def ServiceState.init : ServiceState := ⟨none⟩

namespace AsyncWalkingPadService

/-- `AsyncWalkingPadService._run_blocking` from `service.py`: runs the
blocking call under the io lock; on success publishes exactly one
`OperationTimingEvent(success=True)` and returns the result; on failure
publishes `OperationTimingEvent(success=False)` then
`ErrorEvent(operation, str(exc))` and re-raises.  Returns the published
events in publish order together with the outcome. -/
def run_blocking {α : Type} (operation : String) (call : Except PyErr α) :
    List Event × Except PyErr α :=
  match call with
  | .ok a => ([.operationTiming operation true], .ok a)
  | .error e =>
      ([.operationTiming operation false, .errorEvent operation e.msg], .error e)

/-- `AsyncWalkingPadService._run_command`: `_run_blocking`, then on
success publishes `CommandExecutedEvent(result)`; a failure propagates
out of `_run_blocking` unchanged. -/
def run_command (operation : String) (call : Except PyErr CommandResult) :
    List Event × Except PyErr CommandResult :=
  match run_blocking operation call with
  | (evs, .ok r) => (evs ++ [.commandExecuted r], .ok r)
  | (evs, .error e) => (evs, .error e)

/-- `AsyncWalkingPadService.get_status`: `_run_blocking` on
`adapter.status(quick=quick)`; on success stores the status in
`self._latest_status` and publishes `StatusUpdatedEvent(status, quick)`;
on failure the exception propagates and the state is untouched. -/
def get_status (st : ServiceState) (quick : Bool)
    (call : Except PyErr PadStatus) :
    ServiceState × List Event × Except PyErr PadStatus :=
  match run_blocking "get_status" call with
  | (evs, .ok s) => (⟨some s⟩, evs ++ [.statusUpdated s quick], .ok s)
  | (evs, .error e) => (st, evs, .error e)

end AsyncWalkingPadService

namespace WalkingPadAdapter

/-- `WalkingPadAdapter._run_command` from `infra/miio_adapter.py`:
runs the device call; `WalkingpadException` becomes
`CommandValidationError`, `DeviceException` becomes
`DeviceCommunicationError`, any other exception propagates; on success
returns `CommandResult(command, success=True, message="ok")`. -/
def run_command (command : String) (call : Except PyErr Unit) :
    Except PyErr CommandResult :=
  match call with
  | .ok _ => .ok ⟨command, true, "ok"⟩
  | .error (.walkingpadExc m) => .error (.commandValidation m)
  | .error (.deviceExc m) => .error (.deviceCommunication m)
  | .error e => .error e

/-- `WalkingPadAdapter.set_speed`: validates `0 ≤ speed ≤ 6` before any
device call, raising `CommandValidationError` otherwise; then a raw
`send("set_speed", ...)` via `_run_command`. -/
def set_speed (speed_kmh : ℚ) (sendCall : Except PyErr Unit) :
    Except PyErr CommandResult :=
  if speed_kmh < 0 ∨ speed_kmh > 6 then
    .error (.commandValidation "speed_kmh must be between 0 and 6")
  else
    run_command "set_speed" sendCall

/-- `WalkingPadAdapter.set_start_speed`: same validation, different
message and command name. -/
def set_start_speed (speed_kmh : ℚ) (sendCall : Except PyErr Unit) :
    Except PyErr CommandResult :=
  if speed_kmh < 0 ∨ speed_kmh > 6 then
    .error (.commandValidation "start_speed_kmh must be between 0 and 6")
  else
    run_command "set_start_speed" sendCall

/-- `WalkingPadAdapter.start`: tries `send("set_state", ["run"])`
directly; on `WalkingpadException`/`DeviceException` falls back to
`_run_command("power_on", device.on)` then
`_run_command("start", send("set_state", ["run"]))`; any outcome that
reaches the final line yields `CommandResult("start", True, "ok")`.
The three possible device round-trips are passed as their outcomes. -/
def start (send1 onCall send2 : Except PyErr Unit) :
    Except PyErr CommandResult :=
  match send1 with
  | .ok _ => .ok ⟨"start", true, "ok"⟩
  | .error (.walkingpadExc _) =>
      match run_command "power_on" onCall with
      | .error e => .error e
      | .ok _ =>
          match run_command "start" send2 with
          | .error e => .error e
          | .ok _ => .ok ⟨"start", true, "ok"⟩
  | .error (.deviceExc _) =>
      match run_command "power_on" onCall with
      | .error e => .error e
      | .ok _ =>
          match run_command "start" send2 with
          | .error e => .error e
          | .ok _ => .ok ⟨"start", true, "ok"⟩
  | .error e => .error e

/-- `WalkingPadAdapter.stop`. -/
def stop (call : Except PyErr Unit) : Except PyErr CommandResult :=
  run_command "stop" call

/-- `WalkingPadAdapter.power_on`. -/
def power_on (call : Except PyErr Unit) : Except PyErr CommandResult :=
  run_command "power_on" call

/-- `WalkingPadAdapter.power_off`. -/
def power_off (call : Except PyErr Unit) : Except PyErr CommandResult :=
  run_command "power_off" call

/-- `WalkingPadAdapter.lock`. -/
def lock (call : Except PyErr Unit) : Except PyErr CommandResult :=
  run_command "lock" call

/-- `WalkingPadAdapter.unlock`. -/
def unlock (call : Except PyErr Unit) : Except PyErr CommandResult :=
  run_command "unlock" call

/-- `WalkingPadAdapter.set_mode`: maps the mode and runs
`_run_command("set_mode", ...)`; the mapped enum only changes the device
payload, not the observable result. -/
def set_mode (_mode : PadMode) (call : Except PyErr Unit) :
    Except PyErr CommandResult :=
  run_command "set_mode" call

/-- `WalkingPadAdapter.set_sensitivity`. -/
def set_sensitivity (_sensitivity : PadSensitivity) (call : Except PyErr Unit) :
    Except PyErr CommandResult :=
  run_command "set_sensitivity" call

end WalkingPadAdapter

namespace AsyncWalkingPadService

/-- `AsyncWalkingPadService.set_speed` from `service.py`: no validation
at the service layer; it goes straight to
`_run_command(lambda: adapter.set_speed(speed_kmh), "set_speed")`, so the
adapter's range check runs inside the gateway call. -/
def set_speed (speed_kmh : ℚ) (sendCall : Except PyErr Unit) :
    List Event × Except PyErr CommandResult :=
  run_command "set_speed" (WalkingPadAdapter.set_speed speed_kmh sendCall)

/-- `AsyncWalkingPadService.set_start_speed`: same shape. -/
def set_start_speed (speed_kmh : ℚ) (sendCall : Except PyErr Unit) :
    List Event × Except PyErr CommandResult :=
  run_command "set_start_speed"
    (WalkingPadAdapter.set_start_speed speed_kmh sendCall)

/-- One iteration of the `_poll_loop` body inside
`AsyncWalkingPadService.start_polling`: if `self._io_lock.locked()` the
tick sleeps the full interval and continues (no device call, no events);
otherwise `await self.get_status(quick=False)`; any `Exception` from the
read is caught and published as `ErrorEvent(operation="poll", str(exc))`.
`gateLocked` is the lock check's outcome, `statusCall` the device read's
outcome when one happens. -/
def poll_iteration (st : ServiceState) (gateLocked : Bool)
    (statusCall : Except PyErr PadStatus) : ServiceState × List Event :=
  if gateLocked then (st, [])
  else
    match get_status st false statusCall with
    | (st1, evs, .ok _) => (st1, evs)
    | (st1, evs, .error e) => (st1, evs ++ [.errorEvent "poll" e.msg])

/-- The `_poll_loop` over a finite schedule of ticks, each tick giving
the lock check's outcome and the device read's outcome; every iteration
returns normally and the loop goes on to the next tick. -/
def poll_loop (st : ServiceState)
    (ticks : List (Bool × Except PyErr PadStatus)) :
    ServiceState × List Event :=
  match ticks with
  | [] => (st, [])
  | (g, c) :: rest =>
      let p := poll_iteration st g c
      let q := poll_loop p.1 rest
      (q.1, p.2 ++ q.2)

/-- `ServiceCapabilities` from `domain/contracts.py`. -/
structure ServiceCapabilities where
  supported_models : List String
  model_hint : String
  supports_power : Bool
  supports_lock : Bool
  supports_mode : Bool
  supports_sensitivity : Bool
deriving DecidableEq

/-- Modelled from the spec: `get_capabilities` is declared on the
`WalkingPadService` protocol in `domain/contracts.py` but
`AsyncWalkingPadService` in `service.py` has no implementation of it
under `src/`.  The spec says it is a pure read of the adapter's static
capability description: it never acquires the gateway's admission gate,
performs no device call, publishes no event and leaves the service state
unchanged. -/
def get_capabilities (st : ServiceState) (caps : ServiceCapabilities) :
    ServiceState × List Event × ServiceCapabilities :=
  (st, [], caps)

/-- A gateway-mediated orchestrator operation together with the outcome
of its underlying adapter call: a status read (`get_status(quick=...)`)
or one of the command operations (`start`, `stop`, ..., tagged by its
operation name). -/
inductive OpCall
  | statusOp (quick : Bool) (call : Except PyErr PadStatus)
  | commandOp (operation : String) (call : Except PyErr CommandResult)

/-- One orchestrator operation applied to the service state: a status
read runs `get_status`; a command runs `_run_command`, whose body never
mentions `self._latest_status`. -/
def service_step (st : ServiceState) : OpCall → ServiceState × List Event
  | .statusOp q c =>
      let r := get_status st q c
      (r.1, r.2.1)
  | .commandOp op c => (st, (run_command op c).1)

end AsyncWalkingPadService

/-- `AsyncEventBus` from `app/event_bus.py`: a set of per-subscriber
queues, modelled by the list of live subscriber ids, the full sequence of
events delivered to each id's queue, and a fresh-id counter.  Events are
opaque to the bus (`object` in the source). -/
structure AsyncEventBus (ε : Type) where
  subscribers : List ℕ
  delivered : ℕ → List ε
  nextId : ℕ

/-- `AsyncEventBus.__init__`: empty subscriber set, no queue has
received anything. -/
def AsyncEventBus.empty (ε : Type) : AsyncEventBus ε :=
  ⟨[], fun _ => [], 0⟩

/-- `AsyncEventBus.publish`: snapshots the subscriber set under the bus
lock, then `queue.put_nowait(event)` on each subscribed queue — the event
is appended once to every live subscriber's queue and to no other; the
call never waits on any consumer. -/
def AsyncEventBus.publish {ε : Type} (b : AsyncEventBus ε) (e : ε) :
    AsyncEventBus ε :=
  { b with
    delivered := fun i =>
      if i ∈ b.subscribers then b.delivered i ++ [e] else b.delivered i }

/-- `publish` folded over a sequence of events, in order. -/
def AsyncEventBus.publishAll {ε : Type} (b : AsyncEventBus ε) (es : List ε) :
    AsyncEventBus ε :=
  es.foldl AsyncEventBus.publish b

/-- The subscription step of `AsyncEventBus.stream`: creates a brand-new
empty queue and adds it to the subscriber set; returns the new bus state
and the new subscriber's id. -/
def AsyncEventBus.stream_subscribe {ε : Type} (b : AsyncEventBus ε) :
    AsyncEventBus ε × ℕ :=
  ({ subscribers := b.nextId :: b.subscribers,
     delivered := Function.update b.delivered b.nextId [],
     nextId := b.nextId + 1 }, b.nextId)

/-- The teardown step of `AsyncEventBus.stream` (the `finally` block):
`self._subscribers.discard(queue)` — the id stops receiving future
events. -/
def AsyncEventBus.stream_discard {ε : Type} (b : AsyncEventBus ε) (i : ℕ) :
    AsyncEventBus ε :=
  { b with subscribers := b.subscribers.erase i }

/-- Where an orchestrator operation stands relative to the io lock in
`_run_blocking`: awaiting `async with self._io_lock`, holding it with its
`asyncio.to_thread(func)` device call in flight, or finished (lock
released on every path, success or failure). -/
inductive Phase
  | waiting
  | running
  | finished
deriving DecidableEq

/-- The admission-gate view of the service: each concurrently issued
operation's phase, and whether `self._io_lock` is held. -/
structure GateState where
  phase : ℕ → Phase
  lockHeld : Bool

/-- N concurrently issued operations, none yet admitted, lock free. -/
def gateInit : GateState := ⟨fun _ => Phase.waiting, false⟩

/-- The scheduler steps the io-lock discipline of `_run_blocking` allows:
a waiting operation is admitted only when the lock is free and takes the
lock for the duration of its device call; finishing the call (normally or
by raising) leaves the `async with` block and releases the lock. -/
inductive GateStep : GateState → GateState → Prop
  | acquire (s : GateState) (i : ℕ) (hw : s.phase i = Phase.waiting)
      (hfree : s.lockHeld = false) :
      GateStep s ⟨Function.update s.phase i Phase.running, true⟩
  | finish (s : GateState) (i : ℕ) (hr : s.phase i = Phase.running) :
      GateStep s ⟨Function.update s.phase i Phase.finished, false⟩

/-- States reachable from `gateInit` by scheduler steps. -/
inductive GateReach : GateState → Prop
  | init : GateReach gateInit
  | step {s s1 : GateState} : GateReach s → GateStep s s1 → GateReach s1

/-- The admission-gate invariant: when the lock is free no device call is
in flight, and at most one operation is ever in the `running` phase. -/
def GateInv (s : GateState) : Prop :=
  (s.lockHeld = false → ∀ i, s.phase i ≠ Phase.running) ∧
  (∀ i j, s.phase i = Phase.running → s.phase j = Phase.running → i = j)

/-- A concrete reachable gate state: operation 0 admitted and running. -/
def gateDemo : GateState :=
  ⟨Function.update (fun _ => Phase.waiting) 0 Phase.running, true⟩

/-- A command outcome is benign: if it is a `CommandResult` at all (not a
raised exception), it has `success=True` and `message="ok"`. -/
def okResult : Except PyErr CommandResult → Prop
  | .ok r => r.success = true ∧ r.message = "ok"
  | .error _ => True

/-- C3: per gateway-mediated operation the event order is fixed — one
`OperationTiming` reflecting the outcome first, then on success
`CommandExecuted` (commands) or `StatusUpdated` (status reads), and on
failure `Error` instead; exactly one `OperationTiming` is emitted whether
the underlying call succeeds or fails. -/
theorem gateway_event_order :
    (∀ (op : String) (r : CommandResult),
        AsyncWalkingPadService.run_command op (.ok r) =
          ([.operationTiming op true, .commandExecuted r], .ok r)) ∧
    (∀ (op : String) (e : PyErr),
        AsyncWalkingPadService.run_command op (.error e) =
          ([.operationTiming op false, .errorEvent op e.msg], .error e)) ∧
    (∀ (st : ServiceState) (q : Bool) (s : PadStatus),
        AsyncWalkingPadService.get_status st q (.ok s) =
          (⟨some s⟩, [.operationTiming "get_status" true, .statusUpdated s q],
           .ok s)) ∧
    (∀ (st : ServiceState) (q : Bool) (e : PyErr),
        AsyncWalkingPadService.get_status st q (.error e) =
          (st, [.operationTiming "get_status" false,
                .errorEvent "get_status" e.msg], .error e)) ∧
    (∀ (op : String) (c : Except PyErr CommandResult),
        (AsyncWalkingPadService.run_command op c).1.countP Event.isTiming = 1) ∧
    (∀ (st : ServiceState) (q : Bool) (c : Except PyErr PadStatus),
        (AsyncWalkingPadService.get_status st q c).2.1.countP Event.isTiming
          = 1) := by
  refine ⟨fun op r => rfl, fun op e => rfl, fun st q s => rfl, fun st q e => rfl,
    ?_, ?_⟩
  · intro op c
    cases c <;> rfl
  · intro st q c
    cases c <;> rfl

/-- C6: a poll tick that fires while the gate is held performs no device
call and publishes no events, leaving the state unchanged; a tick that
fires with the gate free performs a full (quick=False) status read. -/
theorem poller_skip_on_busy :
    (∀ (st : ServiceState) (c : Except PyErr PadStatus),
        AsyncWalkingPadService.poll_iteration st true c = (st, [])) ∧
    (∀ (st : ServiceState) (s : PadStatus),
        AsyncWalkingPadService.poll_iteration st false (.ok s) =
          (⟨some s⟩, [.operationTiming "get_status" true,
                      .statusUpdated s false])) := by
  exact ⟨fun st c => rfl, fun st s => rfl⟩

/-- C7: a poll iteration whose status read raises publishes an `Error`
event tagged "poll" (after the gateway's own failure events), returns
normally with the state unchanged, and the loop continues to the next
tick for every possible tick outcome. -/
theorem poller_failure_absorption :
    (∀ (st : ServiceState) (e : PyErr),
        AsyncWalkingPadService.poll_iteration st false (.error e) =
          (st, [.operationTiming "get_status" false,
                .errorEvent "get_status" e.msg, .errorEvent "poll" e.msg])) ∧
    (∀ (st : ServiceState) (e : PyErr),
        (AsyncWalkingPadService.poll_iteration st false (.error e)).2.countP
          (Event.isErrorFor "poll") = 1) ∧
    (∀ (st : ServiceState) (g : Bool) (c : Except PyErr PadStatus)
        (rest : List (Bool × Except PyErr PadStatus)),
        AsyncWalkingPadService.poll_loop st ((g, c) :: rest) =
          ((AsyncWalkingPadService.poll_loop
              (AsyncWalkingPadService.poll_iteration st g c).1 rest).1,
           (AsyncWalkingPadService.poll_iteration st g c).2 ++
             (AsyncWalkingPadService.poll_loop
               (AsyncWalkingPadService.poll_iteration st g c).1 rest).2)) := by
  refine ⟨fun st e => rfl, ?_, fun st g c rest => rfl⟩
  intro st e
  simp [AsyncWalkingPadService.poll_iteration, AsyncWalkingPadService.get_status,
    AsyncWalkingPadService.run_blocking, Event.isErrorFor, List.countP,
    List.countP.go]

/-- C8: the latest-status field starts unset, is set (to the value read)
exactly by successful status reads, is untouched by failed reads and by
every command operation, and once set is only ever replaced, never
cleared. -/
theorem latest_status_invariant :
    ServiceState.init.latest_status = none ∧
    (∀ (st : ServiceState) (q : Bool) (s : PadStatus),
        (AsyncWalkingPadService.get_status st q (.ok s)).1.latest_status
          = some s) ∧
    (∀ (st : ServiceState) (q : Bool) (e : PyErr),
        (AsyncWalkingPadService.get_status st q (.error e)).1 = st) ∧
    (∀ (st : ServiceState) (op : String) (c : Except PyErr CommandResult),
        (AsyncWalkingPadService.service_step st (.commandOp op c)).1 = st) ∧
    (∀ (st : ServiceState) (oc : AsyncWalkingPadService.OpCall),
        (AsyncWalkingPadService.service_step st oc).1.latest_status
            = st.latest_status ∨
          ∃ s, (AsyncWalkingPadService.service_step st oc).1.latest_status
            = some s) := by
  refine ⟨rfl, fun st q s => rfl, fun st q e => rfl, fun st op c => rfl, ?_⟩
  intro st oc
  cases oc with
  | statusOp q c =>
      cases c with
      | ok s => exact Or.inr ⟨s, rfl⟩
      | error e => exact Or.inl rfl
  | commandOp op c => exact Or.inl rfl

/-- C9: `get_capabilities` is a pure read of the adapter's static
capability description — it publishes no events, leaves the service state
unchanged, and returns exactly the adapter's capabilities. -/
theorem get_capabilities_pure :
    ∀ (st : ServiceState) (caps : AsyncWalkingPadService.ServiceCapabilities),
      AsyncWalkingPadService.get_capabilities st caps = (st, [], caps) ∧
      (AsyncWalkingPadService.get_capabilities st caps).2.1 = [] ∧
      (AsyncWalkingPadService.get_capabilities st caps).1 = st :=
  fun _ _ => ⟨rfl, rfl, rfl⟩

/-- C4: a gateway-mediated call whose underlying adapter call raises
publishes exactly one `OperationTiming(success=False)` then exactly one
`Error` tagged with the operation name, publishes no `CommandExecuted`
and no `StatusUpdated`, and re-raises the original exception. -/
theorem gateway_failure_events :
    (∀ (op : String) (e : PyErr),
        (AsyncWalkingPadService.run_command op (.error e)).1 =
          [.operationTiming op false, .errorEvent op e.msg] ∧
        (AsyncWalkingPadService.run_command op (.error e)).2 = .error e ∧
        (AsyncWalkingPadService.run_command op (.error e)).1.countP
          (Event.isErrorFor op) = 1 ∧
        (AsyncWalkingPadService.run_command op (.error e)).1.countP
          Event.isCommandExecuted = 0 ∧
        (AsyncWalkingPadService.run_command op (.error e)).1.countP
          Event.isStatusUpdated = 0) ∧
    (∀ (st : ServiceState) (q : Bool) (e : PyErr),
        (AsyncWalkingPadService.get_status st q (.error e)).2.1 =
          [.operationTiming "get_status" false,
           .errorEvent "get_status" e.msg] ∧
        (AsyncWalkingPadService.get_status st q (.error e)).2.2 = .error e ∧
        (AsyncWalkingPadService.get_status st q (.error e)).2.1.countP
          (Event.isErrorFor "get_status") = 1 ∧
        (AsyncWalkingPadService.get_status st q (.error e)).2.1.countP
          Event.isCommandExecuted = 0 ∧
        (AsyncWalkingPadService.get_status st q (.error e)).2.1.countP
          Event.isStatusUpdated = 0) := by
  constructor
  · intro op e
    refine ⟨rfl, rfl, ?_, rfl, rfl⟩
    simp [AsyncWalkingPadService.run_command, AsyncWalkingPadService.run_blocking,
      Event.isErrorFor, List.countP, List.countP.go, Event.isTiming]
  · intro st q e
    refine ⟨rfl, rfl, ?_, rfl, rfl⟩
    simp [AsyncWalkingPadService.get_status, AsyncWalkingPadService.run_blocking,
      Event.isErrorFor, List.countP, List.countP.go]

/-- C10: every `CommandResult` the adapter's command operations can
produce (start, stop, power_on, power_off, lock, unlock, set_speed,
set_start_speed, set_mode, set_sensitivity, and the shared
`_run_command` helper) has `success=True` and `message="ok"`; failures
surface only as raised exceptions, never as an unsuccessful result. -/
theorem adapter_commands_always_ok :
    (∀ (s1 o s2 : Except PyErr Unit), okResult (WalkingPadAdapter.start s1 o s2)) ∧
    (∀ c, okResult (WalkingPadAdapter.stop c)) ∧
    (∀ c, okResult (WalkingPadAdapter.power_on c)) ∧
    (∀ c, okResult (WalkingPadAdapter.power_off c)) ∧
    (∀ c, okResult (WalkingPadAdapter.lock c)) ∧
    (∀ c, okResult (WalkingPadAdapter.unlock c)) ∧
    (∀ (s : ℚ) (c : Except PyErr Unit), okResult (WalkingPadAdapter.set_speed s c)) ∧
    (∀ (s : ℚ) (c : Except PyErr Unit),
        okResult (WalkingPadAdapter.set_start_speed s c)) ∧
    (∀ (m : PadMode) (c : Except PyErr Unit),
        okResult (WalkingPadAdapter.set_mode m c)) ∧
    (∀ (sv : PadSensitivity) (c : Except PyErr Unit),
        okResult (WalkingPadAdapter.set_sensitivity sv c)) ∧
    (∀ (cmd : String) (c : Except PyErr Unit),
        okResult (WalkingPadAdapter.run_command cmd c)) := by
  have hrun : ∀ (cmd : String) (c : Except PyErr Unit),
      okResult (WalkingPadAdapter.run_command cmd c) := by
    intro cmd c
    cases c with
    | ok u => exact ⟨rfl, rfl⟩
    | error e => cases e <;> trivial
  have hstart : ∀ (s1 o s2 : Except PyErr Unit),
      okResult (WalkingPadAdapter.start s1 o s2) := by
    intro s1 o s2
    cases s1 with
    | ok u => exact ⟨rfl, rfl⟩
    | error e =>
      cases e with
      | walkingpadExc m =>
          cases h1 : WalkingPadAdapter.run_command "power_on" o with
          | error e1 => simp [WalkingPadAdapter.start, h1, okResult]
          | ok r1 =>
              cases h2 : WalkingPadAdapter.run_command "start" s2 with
              | error e2 => simp [WalkingPadAdapter.start, h1, h2, okResult]
              | ok r2 => simp [WalkingPadAdapter.start, h1, h2, okResult]
      | deviceExc m =>
          cases h1 : WalkingPadAdapter.run_command "power_on" o with
          | error e1 => simp [WalkingPadAdapter.start, h1, okResult]
          | ok r1 =>
              cases h2 : WalkingPadAdapter.run_command "start" s2 with
              | error e2 => simp [WalkingPadAdapter.start, h1, h2, okResult]
              | ok r2 => simp [WalkingPadAdapter.start, h1, h2, okResult]
      | keyError m => simp [WalkingPadAdapter.start, okResult]
      | commandValidation m => simp [WalkingPadAdapter.start, okResult]
      | deviceCommunication m => simp [WalkingPadAdapter.start, okResult]
      | otherExc m => simp [WalkingPadAdapter.start, okResult]
  refine ⟨hstart, fun c => hrun _ c, fun c => hrun _ c, fun c => hrun _ c,
    fun c => hrun _ c, fun c => hrun _ c, ?_, ?_,
    fun m c => hrun _ c, fun sv c => hrun _ c, hrun⟩
  · intro s c
    by_cases h : s < 0 ∨ s > 6
    · simp [WalkingPadAdapter.set_speed, h, okResult]
    · simpa [WalkingPadAdapter.set_speed, h] using hrun "set_speed" c
  · intro s c
    by_cases h : s < 0 ∨ s > 6
    · simp [WalkingPadAdapter.set_start_speed, h, okResult]
    · simpa [WalkingPadAdapter.set_start_speed, h] using
        hrun "set_start_speed" c

/-- C2 counterexample: `set_speed(-1)` (and `set_speed(6.1)`) through the
service does NOT produce zero gateway-level events — the service layer
performs no validation, the adapter's range check raises inside the
gateway call, and the gateway publishes an `OperationTiming(success=
False)` and an `Error` event. -/
theorem set_speed_out_of_range_events_counterexample :
    (AsyncWalkingPadService.set_speed (-1) (Except.ok ())).1 =
      [Event.operationTiming "set_speed" false,
       Event.errorEvent "set_speed" "speed_kmh must be between 0 and 6"] ∧
    (AsyncWalkingPadService.set_speed (-1) (Except.ok ())).1.length ≠ 0 ∧
    (AsyncWalkingPadService.set_speed (6.1 : ℚ) (Except.ok ())).1.length
      ≠ 0 := by
  refine ⟨rfl, by decide, ?_⟩
  have h61 : ((6.1 : ℚ) < 0 ∨ (6.1 : ℚ) > 6) := Or.inr (by norm_num)
  simp [AsyncWalkingPadService.set_speed, WalkingPadAdapter.set_speed, h61,
    AsyncWalkingPadService.run_command, AsyncWalkingPadService.run_blocking]

/-- C2 amended: for input outside [0, 6] km/h, `set_speed` and
`set_start_speed` fail with `CommandValidationError` (raised by the
adapter's range check, before any device send but inside the gateway
call), the gateway publishes exactly one `OperationTiming(success=False)`
followed by one `Error` event, no `CommandExecuted` is published, and
the outcome is independent of the device call. -/
theorem set_speed_validation_inside_gateway (s : ℚ)
    (call : Except PyErr Unit) (h : s < 0 ∨ s > 6) :
    AsyncWalkingPadService.set_speed s call =
      ([Event.operationTiming "set_speed" false,
        Event.errorEvent "set_speed" "speed_kmh must be between 0 and 6"],
       Except.error
         (PyErr.commandValidation "speed_kmh must be between 0 and 6")) ∧
    AsyncWalkingPadService.set_start_speed s call =
      ([Event.operationTiming "set_start_speed" false,
        Event.errorEvent "set_start_speed"
          "start_speed_kmh must be between 0 and 6"],
       Except.error
         (PyErr.commandValidation
           "start_speed_kmh must be between 0 and 6")) := by
  constructor
  · simp [AsyncWalkingPadService.set_speed, WalkingPadAdapter.set_speed, h,
      AsyncWalkingPadService.run_command, AsyncWalkingPadService.run_blocking,
      PyErr.msg]
  · simp [AsyncWalkingPadService.set_start_speed,
      WalkingPadAdapter.set_start_speed, h,
      AsyncWalkingPadService.run_command, AsyncWalkingPadService.run_blocking,
      PyErr.msg]

/-- Witness for the amended C2 at `speed = -1`. -/
theorem set_speed_validation_inside_gateway_witness :
    ((-1 : ℚ) < 0 ∨ (-1 : ℚ) > 6) ∧
    (AsyncWalkingPadService.set_speed (-1) (Except.ok ()) =
      ([Event.operationTiming "set_speed" false,
        Event.errorEvent "set_speed" "speed_kmh must be between 0 and 6"],
       Except.error
         (PyErr.commandValidation "speed_kmh must be between 0 and 6")) ∧
     AsyncWalkingPadService.set_start_speed (-1) (Except.ok ()) =
      ([Event.operationTiming "set_start_speed" false,
        Event.errorEvent "set_start_speed"
          "start_speed_kmh must be between 0 and 6"],
       Except.error
         (PyErr.commandValidation
           "start_speed_kmh must be between 0 and 6"))) :=
  ⟨Or.inl (by norm_num),
   set_speed_validation_inside_gateway (-1) (Except.ok ())
     (Or.inl (by norm_num))⟩

/-- C5: hub fan-out — a publish appends the event exactly once to every
queue subscribed at publish time and to no other queue, so each such
subscriber sees every event once in publish order; a subscriber created
after a publish starts with an empty queue and never receives that
event; a sequence of publishes is delivered to a live subscriber in
exactly that order. -/
theorem event_bus_fanout :
    (∀ (b : AsyncEventBus Event) (e : Event) (i : ℕ),
        i ∈ b.subscribers →
        (b.publish e).delivered i = b.delivered i ++ [e]) ∧
    (∀ (b : AsyncEventBus Event) (e : Event) (i : ℕ),
        i ∉ b.subscribers →
        (b.publish e).delivered i = b.delivered i) ∧
    (∀ (b : AsyncEventBus Event) (e : Event),
        ((b.publish e).stream_subscribe.1).delivered
          (b.publish e).stream_subscribe.2 = []) ∧
    (∀ (b : AsyncEventBus Event) (es : List Event) (i : ℕ),
        i ∈ b.subscribers →
        (b.publishAll es).delivered i = b.delivered i ++ es) := by
  have hmem : ∀ (b : AsyncEventBus Event) (e : Event) (i : ℕ),
      i ∈ b.subscribers →
      (b.publish e).delivered i = b.delivered i ++ [e] := by
    intro b e i hi
    simp [AsyncEventBus.publish, hi]
  have hall : ∀ (es : List Event) (b : AsyncEventBus Event) (i : ℕ),
      i ∈ b.subscribers →
      (b.publishAll es).delivered i = b.delivered i ++ es := by
    intro es
    induction es with
    | nil => intro b i hi; simp [AsyncEventBus.publishAll]
    | cons e rest ih =>
        intro b i hi
        have hsubs : (b.publish e).subscribers = b.subscribers := rfl
        have step : (b.publishAll (e :: rest)) =
            ((b.publish e).publishAll rest) := rfl
        rw [step, ih (b.publish e) i (by rw [hsubs]; exact hi),
          hmem b e i hi]
        simp
  refine ⟨hmem, ?_, ?_, fun b es i hi => hall es b i hi⟩
  · intro b e i hi
    simp [AsyncEventBus.publish, hi]
  · intro b e
    simp [AsyncEventBus.stream_subscribe]

/-- Witness for C5: a fresh subscriber on the empty bus receives a
published event exactly once. -/
theorem event_bus_fanout_witness :
    (0 ∈ ((AsyncEventBus.empty Event).stream_subscribe.1).subscribers) ∧
    (((AsyncEventBus.empty Event).stream_subscribe.1).publish
        (Event.operationTiming "start" true)).delivered 0 =
      ((AsyncEventBus.empty Event).stream_subscribe.1).delivered 0 ++
        [Event.operationTiming "start" true] :=
  ⟨by simp [AsyncEventBus.empty, AsyncEventBus.stream_subscribe],
   event_bus_fanout.1 ((AsyncEventBus.empty Event).stream_subscribe.1)
     (Event.operationTiming "start" true) 0
     (by simp [AsyncEventBus.empty, AsyncEventBus.stream_subscribe])⟩

/-- A scheduler step preserves the admission-gate invariant. -/
lemma gateInv_step {s s1 : GateState} (hstep : GateStep s s1)
    (ih : GateInv s) : GateInv s1 := by
  cases hstep with
  | acquire i hw hfree =>
      constructor
      · intro hcontra
        simp at hcontra
      · intro a b ha hb
        have hnone := ih.1 hfree
        change Function.update s.phase i Phase.running a = Phase.running at ha
        change Function.update s.phase i Phase.running b = Phase.running at hb
        by_cases hai : a = i
        · by_cases hbi : b = i
          · rw [hai, hbi]
          · rw [Function.update_noteq hbi] at hb
            exact absurd hb (hnone b)
        · rw [Function.update_noteq hai] at ha
          exact absurd ha (hnone a)
  | finish i hrun =>
      have hnone : ∀ j,
          Function.update s.phase i Phase.finished j ≠ Phase.running := by
        intro j hj
        by_cases hji : j = i
        · rw [hji, Function.update_same] at hj
          exact absurd hj (by simp)
        · rw [Function.update_noteq hji] at hj
          exact hji (ih.2 j i hj hrun)
      exact ⟨fun _ j => hnone j, fun a b ha _ => absurd ha (hnone a)⟩

/-- Every state reachable under the io-lock discipline satisfies the
admission-gate invariant. -/
lemma gateInv_of_reach {s : GateState} (h : GateReach s) : GateInv s := by
  induction h with
  | init =>
      constructor
      · intro _ i
        simp [gateInit]
      · intro i j hi hj
        simp [gateInit] at hi
  | step hr hstep ih => exact gateInv_step hstep ih

/-- C1: single-flight admission — in every state reachable under the
io-lock discipline of `_run_blocking`, an operation whose device call is
in flight holds the lock, and no two operations ever have device calls
in flight at the same time; a later operation's adapter call cannot
begin before an earlier one's has finished. -/
theorem gate_single_flight (s : GateState) (h : GateReach s) :
    (∀ i, s.phase i = Phase.running → s.lockHeld = true) ∧
    (∀ i j, s.phase i = Phase.running → s.phase j = Phase.running →
       i = j) := by
  have hinv := gateInv_of_reach h
  refine ⟨?_, hinv.2⟩
  intro i hi
  cases hlock : s.lockHeld with
  | true => rfl
  | false => exact absurd hi (hinv.1 hlock i)

/-- Witness for C1: the state with operation 0 admitted and running is
reachable, and there the theorem applies. -/
theorem gate_single_flight_witness :
    GateReach gateDemo ∧ gateDemo.lockHeld = true ∧
      gateDemo.phase 0 = Phase.running := by
  have hreach : GateReach gateDemo :=
    GateReach.step GateReach.init (GateStep.acquire gateInit 0 rfl rfl)
  have hrun : gateDemo.phase 0 = Phase.running := by
    simp [gateDemo]
  exact ⟨hreach, (gate_single_flight gateDemo hreach).1 0 hrun, hrun⟩

end WalkingPad
